import Mathlib

/-!
Shallow embedding of the photo-note annotation app (src/app.py), a single
Streamlit script.  One execution of the script ("refresh cycle") is modelled
as a function from the persistent stores (on-disk files, per-session widget
state) and the event inputs (upload-widget content, canvas report) to the
stores after the run together with the rendered output, or to an uncaught
exception when decoding fails.
-/

namespace PhotoNote

/-- A fabric.js shape entry as reported in canvas_result.json_data["objects"]
(src/app.py line 230).  Geometry fields may be absent on malformed entries;
the code reads them with obj.get(..., 0) (line 232). -/
structure Obj where
  type : String
  top : Option Int
  left : Option Int
  width : Option Int
  height : Option Int
deriving DecidableEq

/-- The drawing snapshot: the JSON document the canvas reports and that the
app serialises to canvas_state.json (lines 213-217). -/
structure CanvasData where
  objects : List Obj
deriving DecidableEq

/-- A decoded bitmap.  `orientation` is the EXIF orientation tag carried in
the image metadata (1 = already upright); `mode` is the PIL channel mode;
`pixels` abstracts the raster content. -/
structure Img where
  width : Nat
  height : Nat
  mode : String
  orientation : Nat
  pixels : Nat
deriving DecidableEq

/-- Raw uploaded bytes, abstracted by what PIL decodes them to:
`none` models unsupported or corrupt bytes. -/
structure ImageBytes where
  decodesTo : Option Img
deriving DecidableEq

/-- Image.open (lines 143 and 151): raw decode of the bytes.  PIL keeps the
EXIF orientation tag in metadata and does not rotate the pixels; the app
never calls ImageOps.exif_transpose, so the decoded bitmap is returned
verbatim.  Raises (returns `none`) on undecodable bytes. -/
def pilOpen (b : ImageBytes) : Option Img := b.decodesTo

/-- PIL Image.convert (line 272): changes the channel mode, keeping the
picture content and metadata. -/
def convert (img : Img) (m : String) : Img := { img with mode := m }

/-- The content of canvas_state.json, abstracted by what json.load parses it
to: `none` models invalid JSON. -/
structure JsonText where
  parsed : Option CanvasData
deriving DecidableEq

/-- json.load (line 28). -/
def jsonLoad (t : JsonText) : Option CanvasData := t.parsed

/-- The file-uploader widget value: a stable per-upload id plus the bytes
(lines 111 and 141). -/
structure Upload where
  file_id : Nat
  bytes : ImageBytes
deriving DecidableEq

/-- The on-disk stores: canvas_state.json and project_image.png
(lines 17-18).  `none` means the file does not exist. -/
structure Fs where
  stateFile : Option JsonText
  imageFile : Option Img
deriving DecidableEq

/-- Per-session state (st.session_state): the three keys the script manages
(canvas_init, last_file_id, cached_image), plus the persistent widget values
of the General Notes text area (line 225) and of the note_rect_i text inputs
(line 243), which Streamlit keeps in the same session store. -/
structure Session where
  canvas_init : Option (Option CanvasData)
  last_file_id : Option Nat
  cached_image : Option Img
  generalNote : String
  notes : List (Nat × String)
deriving DecidableEq

/-- The value of the note_rect_i text input: the stored widget value, or the
empty string when the key is absent (lines 240 and 243). -/
def noteValue (s : Session) (i : Nat) : String := (s.notes.lookup i).getD ""

/-- Bootstrap of st.session_state.canvas_init (lines 24-32): only when the
key is absent, load the snapshot file; invalid JSON is swallowed by the bare
except and the key is set to Python None (`some none`); a missing file also
gives None. -/
def initCanvas (fs : Fs) (s : Session) : Session :=
  match s.canvas_init with
  | some _ => s
  | none =>
    match fs.stateFile with
    | some t => { s with canvas_init := some (jsonLoad t) }
    | none => { s with canvas_init := some none }

/-- The Reset Project button handler (lines 127-133): removes the two files
and deletes the session keys canvas_init, last_file_id and cached_image,
then reruns.  It does not touch the General Notes widget value nor the
note_rect_i widget values. -/
def resetProject (fs : Fs) (s : Session) : Fs × Session :=
  ({ stateFile := none, imageFile := none },
   { s with canvas_init := none, last_file_id := none, cached_image := none })

/-- The rectangle filter (line 231): keeps entries whose "type" is "rect". -/
def isRect (o : Obj) : Bool := o.type == "rect"

/-- The sort key of line 232: (obj.get("top", 0), obj.get("left", 0)). -/
def sortKey (o : Obj) : Int × Int := (o.top.getD 0, o.left.getD 0)

/-- Python tuple comparison on the sort keys: lexicographic (top, left). -/
def rectLe (a b : Obj) : Prop :=
  (sortKey a).1 < (sortKey b).1 ∨
    ((sortKey a).1 = (sortKey b).1 ∧ (sortKey a).2 ≤ (sortKey b).2)

instance (a b : Obj) : Decidable (rectLe a b) :=
  inferInstanceAs (Decidable (_ ∨ _))

/-- Lines 231-232: filter the reported shape list to rectangles, then sort
by (top, left).  Python list.sort is a stable sort; any stable sort by the
same key computes the same list, so it is modelled by insertion sort with
the non-strict lexicographic key order. -/
def rectObjects (objects : List Obj) : List Obj :=
  List.insertionSort rectLe (objects.filter isRect)

/-- The values shown in the note_rect_0..n-1 inputs, in index order
(lines 238-243). -/
def noteValues (s : Session) (n : Nat) : List String :=
  (List.range n).map (noteValue s)

/-- The note binding of lines 238-244: the i-th sorted rectangle is paired
with the widget value stored under note_rect_i. -/
def boundNotes (s : Session) (objects : List Obj) : List (Obj × String) :=
  (rectObjects objects).zip (noteValues s (rectObjects objects).length)

/-- The selection blocks of the text export, accumulated by line 244:
SELECTION #(i+1) followed by the note, 1-indexed. -/
def selBlocks : Nat → List String → String
  | _, [] => ""
  | i, v :: rest =>
      "SELECTION #" ++ toString (i + 1) ++ ":\n" ++ v ++ "\n\n" ++ selBlocks (i + 1) rest

/-- The exported text (lines 226 and 244): the general-notes block followed
by one selection block per bound note. -/
def combined_notes (general : String) (vals : List String) : String :=
  "GENERAL NOTES:\n" ++ general ++ "\n\n" ++ selBlocks 0 vals

/-- Restatement of the export format in the words of the spec (sections 4.2
and 4.4): a leading general-notes block, then the 1-indexed concatenation
SELECTION #(i+1) over the notes in order.  Used only to compare against
`combined_notes`, which is translated from the code. -/
def specExportText (general : String) (vals : List String) : String :=
  "GENERAL NOTES:\n" ++ general ++ "\n\n" ++
    String.join (vals.enum.map
      (fun p => "SELECTION #" ++ toString (p.1 + 1) ++ ":\n" ++ p.2 ++ "\n\n"))

/-- The uncaught exceptions a refresh can die with. -/
inductive RunError where
  | decodeError
deriving DecidableEq

/-- The image-loading block (lines 139-153).  On a new file id the decoded
image is saved to project_image.png and the session keys are updated; on the
same id the bytes are just re-decoded; with no upload the saved project
image is used when present.  A decode failure is an uncaught exception and
aborts before any mutation of this branch. -/
def loadImageStep (fs : Fs) (s : Session) (uploaded : Option Upload) :
    Except RunError (Fs × Session × Option Img) :=
  match uploaded with
  | some up =>
    if s.last_file_id ≠ some up.file_id then
      match pilOpen up.bytes with
      | none => Except.error RunError.decodeError
      | some img =>
          Except.ok ({ fs with imageFile := some img },
            { s with last_file_id := some up.file_id, cached_image := some img },
            some img)
    else
      match pilOpen up.bytes with
      | none => Except.error RunError.decodeError
      | some img => Except.ok (fs, s, some img)
  | none => Except.ok (fs, s, fs.imageFile)

/-- The state-save block (lines 213-217): when the canvas reported a JSON
document, write it to canvas_state.json; session state is deliberately not
updated. -/
def saveStateStep (fs : Fs) (report : Option CanvasData) : Fs :=
  match report with
  | some d => { fs with stateFile := some { parsed := some d } }
  | none => fs

/-- The event inputs of one refresh cycle: the upload-widget content and the
shape report of the drawing surface (canvas_result.json_data). -/
structure RunInput where
  uploaded : Option Upload
  canvasReport : Option CanvasData
deriving DecidableEq

/-- What one refresh renders: the background image, the key and seed passed
to st_canvas (lines 198-210, `none` when the canvas is not rendered), the
sorted rectangle list with the note values bound to it (lines 229-244), and
the text-export content offered for download (lines 249-259, `none` when
no download section is rendered). -/
structure RunOutput where
  displayedImage : Option Img
  canvasKey : Option String
  canvasSeed : Option (Option CanvasData)
  rects : List Obj
  noteVals : List String
  exportText : Option String
deriving DecidableEq

/-- The rectangle list rendered in the notes column (lines 229-232): empty
when the canvas reported no JSON document, otherwise the filtered and
sorted rectangles. -/
def renderedRects (report : Option CanvasData) : List Obj :=
  match report with
  | some d => rectObjects d.objects
  | none => []

/-- One execution of the script: canvas_init bootstrap, image logic, canvas
rendering with the constant widget key "canvas" (line 208) and the session
seed (line 207), state save, then the notes column and the download
section.  Returns the stores after the run and either the rendered output
or the uncaught exception. -/
def scriptRun (fs : Fs) (s : Session) (inp : RunInput) :
    Fs × Session × Except RunError RunOutput :=
  match loadImageStep fs (initCanvas fs s) inp.uploaded with
  | Except.error e => (fs, initCanvas fs s, Except.error e)
  | Except.ok (fs₂, s₂, image) =>
    match image with
    | some img =>
      (saveStateStep fs₂ inp.canvasReport, s₂, Except.ok {
        displayedImage := some img
        canvasKey := some "canvas"
        canvasSeed := some (s₂.canvas_init.getD none)
        rects := renderedRects inp.canvasReport
        noteVals := noteValues s₂ (renderedRects inp.canvasReport).length
        exportText := some (combined_notes s₂.generalNote
          (noteValues s₂ (renderedRects inp.canvasReport).length)) })
    | none =>
      (fs₂, s₂, Except.ok {
        displayedImage := none
        canvasKey := none
        canvasSeed := none
        rects := []
        noteVals := []
        exportText := none })

/-- Projection to the rendered output of a run, `none` on an uncaught
exception. -/
def runOut (r : Fs × Session × Except RunError RunOutput) : Option RunOutput :=
  match r.2.2 with
  | Except.ok o => some o
  | Except.error _ => none

/-! Concrete fixtures used by the counterexamples and witnesses. -/

/-- An upright 800x600 RGB photo. -/
def img0 : Img := ⟨800, 600, "RGB", 1, 1⟩

/-- A second, different photo. -/
def imgB : Img := ⟨640, 480, "RGB", 1, 2⟩

/-- A photo whose EXIF orientation tag is 6 (stored rotated). -/
def img6 : Img := ⟨2, 3, "RGB", 6, 42⟩

/-- An empty drawing snapshot. -/
def d0 : CanvasData := ⟨[]⟩

/-- A rectangle at top 50, left 10. -/
def r50 : Obj := ⟨"rect", some 50, some 10, some 5, some 5⟩

/-- A rectangle at top 20, left 5. -/
def r20 : Obj := ⟨"rect", some 20, some 5, some 5, some 5⟩

/-- A malformed rectangle entry with no geometry fields. -/
def rMal : Obj := ⟨"rect", none, none, none, none⟩

/-- A well-formed rectangle at top 10, left 10. -/
def rGood : Obj := ⟨"rect", some 10, some 10, some 4, some 4⟩

/-- Stores of a populated project: snapshot file and image file present. -/
def fsA : Fs := ⟨some ⟨some d0⟩, some img0⟩

/-- Session of a populated project with a general note and one bound note. -/
def sA : Session := ⟨some (some d0), some 7, some img0, "hi", [(0, "keep")]⟩

/-- Stores with only the project image on disk. -/
def fs0 : Fs := ⟨none, some img0⟩

/-- A session whose first note field holds "A". -/
def s0 : Session := ⟨some none, none, none, "", [(0, "A")]⟩

/-- Empty stores. -/
def fsE : Fs := ⟨none, none⟩

/-- A fresh session. -/
def sE : Session := ⟨none, none, none, "", []⟩

/-- Stores whose snapshot file holds invalid JSON. -/
def fsBad : Fs := ⟨some ⟨none⟩, none⟩

/-- Refresh input: no upload, canvas reports one rectangle. -/
def inp1 : RunInput := ⟨none, some ⟨[r50]⟩⟩

/-- Refresh input: no upload, canvas reports a second rectangle drawn above
the first. -/
def inp2 : RunInput := ⟨none, some ⟨[r20, r50]⟩⟩

/-- Refresh input: upload of the EXIF-rotated photo. -/
def inp6 : RunInput := ⟨some ⟨1, ⟨some img6⟩⟩, none⟩

/-- Refresh input: upload of corrupt bytes under a fresh file id. -/
def inpBad : RunInput := ⟨some ⟨9, ⟨none⟩⟩, none⟩

/-- Refresh input: upload of the first photo. -/
def inpA : RunInput := ⟨some ⟨1, ⟨some img0⟩⟩, none⟩

/-- Refresh input: upload of the second photo. -/
def inpB : RunInput := ⟨some ⟨2, ⟨some imgB⟩⟩, none⟩

/-- The rendered output of a refresh with no image. -/
def emptyOut : RunOutput := ⟨none, none, none, [], [], none⟩

/-- The rendered output of a refresh of fs0/s0 with report [r50]. -/
def out1 : RunOutput :=
  ⟨some img0, some "canvas", some none, [r50], ["A"],
   some "GENERAL NOTES:\n\n\nSELECTION #1:\nA\n\n"⟩

/-! Order properties of the rectangle sort. -/

instance : DecidableRel rectLe := fun a b => inferInstanceAs (Decidable (_ ∨ _))

instance : IsTotal Obj rectLe :=
  ⟨by intro a b; unfold rectLe; omega⟩

instance : IsTrans Obj rectLe :=
  ⟨by intro a b c hab hbc; unfold rectLe at *; omega⟩

theorem rectLe_of_sortKey_eq {a b : Obj} (h : sortKey a = sortKey b) : rectLe a b := by
  unfold rectLe
  rw [h]
  omega

theorem rectLe_cases {a b : Obj} (h : rectLe a b) :
    sortKey a = sortKey b ∨ ((sortKey a).1 < (sortKey b).1 ∨
      ((sortKey a).1 = (sortKey b).1 ∧ (sortKey a).2 < (sortKey b).2)) := by
  unfold rectLe at h
  rcases h with h | ⟨h1, h2⟩
  · right; left; exact h
  · rcases lt_or_eq_of_le h2 with h2 | h2
    · right; right; exact ⟨h1, h2⟩
    · left; exact Prod.ext_iff.mpr ⟨h1, h2⟩

theorem filter_orderedInsert (a : Obj) (l : List Obj) (k : Int × Int) :
    (List.orderedInsert rectLe a l).filter (fun o => decide (sortKey o = k)) =
      if sortKey a = k then a :: l.filter (fun o => decide (sortKey o = k))
      else l.filter (fun o => decide (sortKey o = k)) := by
  induction l with
  | nil =>
    simp only [List.orderedInsert_nil, List.filter]
    by_cases h : sortKey a = k <;> simp [h]
  | cons b l ih =>
    by_cases hab : rectLe a b
    · rw [List.orderedInsert_of_le rectLe _ hab]
      by_cases h : sortKey a = k <;> simp [List.filter_cons, h]
    · have hbk : sortKey a = k → ¬ sortKey b = k := by
        intro ha hb
        exact hab (rectLe_of_sortKey_eq (ha.trans hb.symm))
      simp only [List.orderedInsert, if_neg hab, List.filter_cons, ih]
      by_cases ha : sortKey a = k
      · have hb := hbk ha
        simp [ha, hb]
      · by_cases hb : sortKey b = k <;> simp [ha, hb]

theorem filter_insertionSort (l : List Obj) (k : Int × Int) :
    (List.insertionSort rectLe l).filter (fun o => decide (sortKey o = k)) =
      l.filter (fun o => decide (sortKey o = k)) := by
  induction l with
  | nil => rfl
  | cons a l ih =>
    simp only [List.insertionSort]
    rw [filter_orderedInsert]
    by_cases h : sortKey a = k
    · simp [List.filter_cons, h, ih]
    · simp [List.filter_cons, h, ih]

/-! Basic facts about the session bootstrap, the image step, the save step
and the note binding, shared by the claim theorems below. -/

theorem initCanvas_isSome (fs : Fs) (s : Session) :
    ((initCanvas fs s).canvas_init).isSome := by
  cases h : s.canvas_init with
  | some v => simp [initCanvas, h]
  | none =>
    cases h2 : fs.stateFile with
    | some t => simp [initCanvas, h, h2]
    | none => simp [initCanvas, h, h2]

theorem initCanvas_of_isSome {s : Session} (fs : Fs) (h : s.canvas_init.isSome) :
    initCanvas fs s = s := by
  cases h2 : s.canvas_init with
  | some v => simp [initCanvas, h2]
  | none => rw [h2] at h; simp at h

theorem initCanvas_fields (fs : Fs) (s : Session) :
    (initCanvas fs s).last_file_id = s.last_file_id ∧
    (initCanvas fs s).cached_image = s.cached_image ∧
    (initCanvas fs s).generalNote = s.generalNote ∧
    (initCanvas fs s).notes = s.notes := by
  cases h : s.canvas_init <;> cases h2 : fs.stateFile <;> simp [initCanvas, h, h2]

theorem saveStateStep_imageFile (fs : Fs) (rep : Option CanvasData) :
    (saveStateStep fs rep).imageFile = fs.imageFile := by
  cases rep <;> simp [saveStateStep]

theorem saveStateStep_idem (fs : Fs) (rep : Option CanvasData) :
    saveStateStep (saveStateStep fs rep) rep = saveStateStep fs rep := by
  rcases fs with ⟨sf, imf⟩
  rcases rep with _ | d <;> rfl

theorem noteValues_length (s : Session) (n : Nat) : (noteValues s n).length = n := by
  simp [noteValues]

theorem boundNotes_fst (s : Session) (l : List Obj) :
    (boundNotes s l).map Prod.fst = rectObjects l :=
  List.map_fst_zip _ _ (by rw [noteValues_length])

theorem boundNotes_snd (s : Session) (l : List Obj) :
    (boundNotes s l).map Prod.snd = noteValues s (rectObjects l).length :=
  List.map_snd_zip _ _ (by rw [noteValues_length])

theorem join_cons (a : String) (l : List String) :
    String.join (a :: l) = a ++ String.join l := by
  apply String.ext
  simp

theorem selBlocks_eq_join (vals : List String) : ∀ i : Nat,
    selBlocks i vals = String.join ((List.enumFrom i vals).map
      (fun p => "SELECTION #" ++ toString (p.1 + 1) ++ ":\n" ++ p.2 ++ "\n\n")) := by
  induction vals with
  | nil => intro i; rfl
  | cons v rest ih =>
    intro i
    rw [List.enumFrom_cons, List.map_cons, join_cons, selBlocks, ih (i + 1)]

theorem loadImageStep_ok_fields {fs fs₂ : Fs} {s s₂ : Session} {u : Option Upload}
    {img : Option Img} (h : loadImageStep fs s u = Except.ok (fs₂, s₂, img)) :
    s₂.canvas_init = s.canvas_init ∧ s₂.generalNote = s.generalNote ∧
    s₂.notes = s.notes := by
  rcases u with _ | up
  · simp only [loadImageStep, Except.ok.injEq, Prod.mk.injEq] at h
    obtain ⟨rfl, rfl, rfl⟩ := h
    exact ⟨rfl, rfl, rfl⟩
  · simp only [loadImageStep] at h
    split at h <;>
    · cases hp : pilOpen up.bytes with
      | none =>
        simp only [hp] at h
        exact Except.noConfusion h
      | some i =>
        simp only [hp, Except.ok.injEq, Prod.mk.injEq] at h
        obtain ⟨rfl, rfl, rfl⟩ := h
        exact ⟨rfl, rfl, rfl⟩

theorem loadImageStep_restart {fs fs₂ fs₃ : Fs} {s s₂ : Session} {u : Option Upload}
    {img : Option Img} (h : loadImageStep fs s u = Except.ok (fs₂, s₂, img))
    (him : fs₃.imageFile = fs₂.imageFile) :
    loadImageStep fs₃ s₂ u = Except.ok (fs₃, s₂, img) := by
  rcases u with _ | up
  · simp only [loadImageStep, Except.ok.injEq, Prod.mk.injEq] at h
    obtain ⟨rfl, rfl, rfl⟩ := h
    simp only [loadImageStep, him]
  · simp only [loadImageStep] at h
    split at h
    · cases hp : pilOpen up.bytes with
      | none =>
        simp only [hp] at h
        exact Except.noConfusion h
      | some i =>
        simp only [hp, Except.ok.injEq, Prod.mk.injEq] at h
        obtain ⟨rfl, rfl, rfl⟩ := h
        simp [loadImageStep, hp]
    · rename_i hid
      cases hp : pilOpen up.bytes with
      | none =>
        simp only [hp] at h
        exact Except.noConfusion h
      | some i =>
        simp only [hp, Except.ok.injEq, Prod.mk.injEq] at h
        obtain ⟨rfl, rfl, rfl⟩ := h
        rw [loadImageStep, if_neg hid, hp]

theorem initCanvas_setNotes (fs : Fs) (s : Session) (g : String)
    (ns : List (Nat × String)) :
    initCanvas fs { s with generalNote := g, notes := ns } =
      { initCanvas fs s with generalNote := g, notes := ns } := by
  obtain ⟨ci, lf, cimg, gn, nts⟩ := s
  cases ci <;> cases h2 : fs.stateFile <;> simp [initCanvas, h2]

theorem loadImageStep_setNotes (fs : Fs) (s : Session) (u : Option Upload)
    (g : String) (ns : List (Nat × String)) :
    loadImageStep fs { s with generalNote := g, notes := ns } u =
      Except.map (fun t => (t.1, { t.2.1 with generalNote := g, notes := ns }, t.2.2))
        (loadImageStep fs s u) := by
  obtain ⟨ci, lf, cimg, gn, nts⟩ := s
  rcases u with _ | up
  · rfl
  · simp only [loadImageStep]
    by_cases hid : lf ≠ some up.file_id
    · rw [if_pos hid, if_pos hid]
      cases hp : pilOpen up.bytes <;> simp only [hp] <;> rfl
    · rw [if_neg hid, if_neg hid]
      cases hp : pilOpen up.bytes <;> simp only [hp] <;> rfl

theorem scriptRun_ok_fields (fs : Fs) (s : Session) (inp : RunInput) (o : RunOutput)
    (h : (scriptRun fs s inp).2.2 = Except.ok o) :
    o.canvasKey = o.displayedImage.map (fun _ => "canvas") ∧
    o.exportText = o.displayedImage.map
      (fun _ => combined_notes s.generalNote o.noteVals) := by
  cases hL : loadImageStep fs (initCanvas fs s) inp.uploaded with
  | error e => simp [scriptRun, hL] at h
  | ok t =>
    obtain ⟨fs₂, s₂, img⟩ := t
    have hg : s₂.generalNote = s.generalNote := by
      rw [(loadImageStep_ok_fields hL).2.1, (initCanvas_fields fs s).2.2.1]
    cases img with
    | some i =>
      simp only [scriptRun, hL, Except.ok.injEq] at h
      subst h
      exact ⟨rfl, by simp [hg]⟩
    | none =>
      simp only [scriptRun, hL, Except.ok.injEq] at h
      subst h
      exact ⟨rfl, rfl⟩

/-! The claims. -/

/-- C1: the claim says Reset clears every component of the Project together
(image, shapes, general note, per-rectangle notes).  The code (lines
127-133) removes the two files and deletes the keys canvas_init,
last_file_id and cached_image, but never touches the General Notes widget
value nor the note_rect_i widget values, so after Reset the image and shape
snapshot are gone while both kinds of notes survive — exactly the mixed
state the claim rules out.  This theorem evaluates the reset handler on a
populated project and exhibits the mix. -/
theorem claim_C1 :
    (resetProject fsA sA).1.imageFile = none ∧
    (resetProject fsA sA).1.stateFile = none ∧
    (resetProject fsA sA).2.canvas_init = none ∧
    (resetProject fsA sA).2.generalNote = "hi" ∧
    noteValue (resetProject fsA sA).2 0 = "keep" ∧
    noteValue (resetProject fsA sA).2 0 ≠ "" := by
  refine ⟨rfl, rfl, rfl, rfl, rfl, ?_⟩
  decide

/-- C2 (amended): notes are bound positionally, not to logical rectangles.
The rectangle column of the binding is the (top,left)-sorted rectangle
list, and the note column is exactly the widget values note_rect_0..n-1,
so it depends only on the session note state and the rectangle count —
never on which rectangles are present.  Hence a note stays with the same
logical rectangle only while that rectangle keeps its sort rank. -/
theorem claim_C2 :
    (∀ (s : Session) (l : List Obj),
      (boundNotes s l).map Prod.fst = rectObjects l ∧
      (boundNotes s l).map Prod.snd = noteValues s (rectObjects l).length) ∧
    (∀ (s : Session) (l₁ l₂ : List Obj),
      (rectObjects l₁).length = (rectObjects l₂).length →
      (boundNotes s l₁).map Prod.snd = (boundNotes s l₂).map Prod.snd) :=
  ⟨fun s l => ⟨boundNotes_fst s l, boundNotes_snd s l⟩,
   fun s l₁ l₂ h => by rw [boundNotes_snd, boundNotes_snd, h]⟩

/-- C2 witness: two different single-rectangle lists produce the very same
note column. -/
theorem claim_C2_witness :
    (rectObjects [r50]).length = (rectObjects [rGood]).length ∧
    (boundNotes s0 [r50]).map Prod.snd = (boundNotes s0 [rGood]).map Prod.snd :=
  ⟨by decide, claim_C2.2 s0 [r50] [rGood] (by decide)⟩

/-- C2 counterexample: with the note "A" stored under note_rect_0, render 1
(one rectangle at top 50) binds "A" to that rectangle; after a second
rectangle is drawn at top 20, render 2 binds "A" to the new rectangle
instead — the note did not stay with the same logical rectangle. -/
theorem claim_C2_cex :
    (runOut (scriptRun fs0 s0 inp1)).map (fun o => o.rects.zip o.noteVals) =
      some [(r50, "A")] ∧
    (runOut (scriptRun fs0 s0 inp2)).map (fun o => o.rects.zip o.noteVals) =
      some [(r20, "A"), (r50, "")] ∧
    r20 ≠ r50 := by
  decide

/-- C3: the annotation list is the reported shape list filtered to
rectangles and stably sorted by (top, left): the result is sorted in the
non-strict lexicographic key order (so distinct keys appear in strictly
ascending order), it is a permutation of the filtered list, and for every
key the sublist of entries with that key is exactly the one of the
filtered input, in adapter-reported order (stability). -/
theorem claim_C3 (l : List Obj) :
    List.Sorted rectLe (rectObjects l) ∧
    (rectObjects l).Pairwise (fun a b => sortKey a = sortKey b ∨
      ((sortKey a).1 < (sortKey b).1 ∨
        ((sortKey a).1 = (sortKey b).1 ∧ (sortKey a).2 < (sortKey b).2))) ∧
    List.Perm (rectObjects l) (l.filter isRect) ∧
    ∀ k : Int × Int,
      (rectObjects l).filter (fun o => decide (sortKey o = k)) =
        (l.filter isRect).filter (fun o => decide (sortKey o = k)) :=
  ⟨List.sorted_insertionSort rectLe _,
   (List.sorted_insertionSort rectLe _).imp rectLe_cases,
   List.perm_insertionSort rectLe _,
   fun k => filter_insertionSort _ k⟩

/-- C9 (amended): shape entries are never skipped and never fatal: the
annotation list always contains exactly the entries whose type is "rect",
malformed ones included; an entry missing its geometry fields is kept and
simply sorts with the defaulted key (0, 0), mirroring obj.get("top", 0)
and obj.get("left", 0). -/
theorem claim_C9 :
    (∀ l : List Obj, (rectObjects l).length = (l.filter isRect).length) ∧
    (∀ (l : List Obj) (o : Obj), o ∈ l.filter isRect → o ∈ rectObjects l) ∧
    (∀ o : Obj, o.top = none → o.left = none → sortKey o = (0, 0)) :=
  ⟨fun l => (List.perm_insertionSort rectLe _).length_eq,
   fun l o h => (List.perm_insertionSort rectLe _).mem_iff.mpr h,
   fun o h1 h2 => by simp [sortKey, h1, h2]⟩

/-- C9 witness: a well-formed rectangle passes the filter and appears in
the annotation list, and the malformed rectangle gets the defaulted key. -/
theorem claim_C9_witness :
    rGood ∈ [rGood, rMal].filter isRect ∧
    rGood ∈ rectObjects [rGood, rMal] ∧
    sortKey rMal = (0, 0) :=
  ⟨by decide, claim_C9.2.1 [rGood, rMal] rGood (by decide),
   claim_C9.2.2 rMal rfl rfl⟩

/-- C9 counterexample: a rectangle entry with no geometry fields is not
skipped: it stays in the rendered annotation list (sorted first, under the
defaulted key (0,0)). -/
theorem claim_C9_cex :
    rectObjects [rGood, rMal] = [rMal, rGood] ∧
    rMal ∈ rectObjects [rGood, rMal] := by
  decide

/-- C4: the text export is offered exactly when a project image is shown,
and its content is the general-notes block followed by the 1-indexed
selection blocks: `combined_notes` (the code accumulation of lines 226 and
244) equals the format stated by the spec, with zero rectangles it is only
the general-notes block, and the spec scenario (general note "hi", one
note "box1") produces the exact expected text. -/
theorem claim_C4 :
    (∀ (g : String) (vals : List String),
      combined_notes g vals = specExportText g vals) ∧
    (∀ g : String, combined_notes g [] = "GENERAL NOTES:\n" ++ g ++ "\n\n") ∧
    combined_notes "hi" ["box1"] = "GENERAL NOTES:\nhi\n\nSELECTION #1:\nbox1\n\n" ∧
    (∀ (fs : Fs) (s : Session) (inp : RunInput) (o : RunOutput),
      (scriptRun fs s inp).2.2 = Except.ok o →
      o.exportText = o.displayedImage.map
        (fun _ => combined_notes s.generalNote o.noteVals)) := by
  refine ⟨?_, ?_, by decide, ?_⟩
  · intro g vals
    unfold combined_notes specExportText
    rw [selBlocks_eq_join vals 0]
    rfl
  · intro g
    simp [combined_notes, selBlocks]
  · intro fs s inp o h
    exact (scriptRun_ok_fields fs s inp o h).2

/-- C4 witness: the format equation at the scenario input, and the
export/display availability equation at a concrete refresh without an
image. -/
theorem claim_C4_witness :
    combined_notes "hi" ["box1"] = specExportText "hi" ["box1"] ∧
    emptyOut.exportText = emptyOut.displayedImage.map
      (fun _ => combined_notes sE.generalNote emptyOut.noteVals) :=
  ⟨claim_C4.1 "hi" ["box1"],
   claim_C4.2.2.2 fsE sE ⟨none, none⟩ emptyOut (by rfl)⟩

/-- C6: the claim says corrupt bytes are caught (DecodeError), a message is
shown and the session keeps running.  The code wraps Image.open in no
try/except (lines 140-153), so corrupt bytes raise an uncaught decode
exception that aborts the whole refresh; only the other half of the claim
holds: the prior stores and session are left untouched, because the
exception fires before any mutation.  This theorem evaluates the refresh on
a populated project with a corrupt upload: the run aborts with the decode
error and returns the stores and session exactly as they were. -/
theorem claim_C6 :
    scriptRun fsA sA inpBad = (fsA, sA, Except.error RunError.decodeError) := by
  rfl

/-- C7 (amended): the widget key passed to st_canvas is the constant
"canvas" (line 208) on every refresh that renders the canvas, and absent
otherwise — it never changes, in particular not when the image identity
changes. -/
theorem claim_C7 (fs : Fs) (s : Session) (inp : RunInput) (o : RunOutput)
    (h : (scriptRun fs s inp).2.2 = Except.ok o) :
    o.canvasKey = o.displayedImage.map (fun _ => "canvas") :=
  (scriptRun_ok_fields fs s inp o h).1

/-- C7 witness: the key equation at a concrete refresh that renders the
canvas with one rectangle. -/
theorem claim_C7_witness :
    out1.canvasKey = out1.displayedImage.map (fun _ => "canvas") :=
  claim_C7 fs0 s0 inp1 out1 (by rfl)

/-- C7 counterexample: two refreshes displaying two different images (two
different uploads) pass the very same widget key "canvas" to the drawing
surface — the key does not change when the image identity changes. -/
theorem claim_C7_cex :
    (runOut (scriptRun fsE sE inpA)).map (fun o => o.canvasKey) =
      some (some "canvas") ∧
    (runOut (scriptRun fsE sE inpB)).map (fun o => o.canvasKey) =
      some (some "canvas") ∧
    (runOut (scriptRun fsE sE inpA)).map (fun o => o.displayedImage) ≠
      (runOut (scriptRun fsE sE inpB)).map (fun o => o.displayedImage) := by
  decide

/-- C8 (amended): for every successful upload the app displays exactly the
raw decode of the bytes — Image.open keeps the EXIF orientation tag
unapplied and the channel mode unchanged (ImageOps is imported on line 3
but never used) — and conversion to RGBA happens only in the export
compositing step (line 272), which leaves orientation metadata and picture
content alone. -/
theorem claim_C8 :
    (∀ (fs : Fs) (s : Session) (inp : RunInput) (up : Upload) (img : Img),
      inp.uploaded = some up → pilOpen up.bytes = some img →
      ∃ o, (scriptRun fs s inp).2.2 = Except.ok o ∧ o.displayedImage = some img) ∧
    (∀ img : Img, (convert img "RGBA").mode = "RGBA" ∧
      (convert img "RGBA").orientation = img.orientation ∧
      (convert img "RGBA").pixels = img.pixels) := by
  constructor
  · intro fs s inp up img hu hp
    have hload : ∃ fs₂ s₂, loadImageStep fs (initCanvas fs s) (some up) =
        Except.ok (fs₂, s₂, some img) := by
      by_cases hid : (initCanvas fs s).last_file_id ≠ some up.file_id
      · exact ⟨_, _, by rw [loadImageStep, if_pos hid, hp]⟩
      · exact ⟨_, _, by rw [loadImageStep, if_neg hid, hp]⟩
    obtain ⟨fs₂, s₂, hload⟩ := hload
    simp only [scriptRun, hu, hload]
    exact ⟨_, rfl, rfl⟩
  · intro img
    exact ⟨rfl, rfl, rfl⟩

/-- C8 witness: a successful concrete upload is displayed verbatim. -/
theorem claim_C8_witness :
    ∃ o, (scriptRun fsE sE inpA).2.2 = Except.ok o ∧
      o.displayedImage = some img0 :=
  claim_C8.1 fsE sE inpA ⟨1, ⟨some img0⟩⟩ img0 rfl rfl

/-- C8 counterexample: uploading a photo stored with EXIF orientation tag 6
displays a bitmap whose orientation tag is still 6 and whose mode is still
"RGB" — the orientation metadata was not applied at load and the result was
not normalized to RGBA. -/
theorem claim_C8_cex :
    (runOut (scriptRun fsE sE inp6)).map (fun o => o.displayedImage) =
      some (some img6) ∧
    img6.orientation ≠ 1 ∧ img6.mode ≠ "RGBA" := by
  decide

/-- C10: when canvas_state.json exists but holds invalid JSON, the bare
except of lines 27-30 sets the initial drawing to Python None (a fresh
canvas) and the refresh completes without raising. -/
theorem claim_C10 (fs : Fs) (s : Session) (rep : Option CanvasData)
    (h1 : fs.stateFile = some { parsed := none }) (h2 : s.canvas_init = none) :
    (scriptRun fs s ⟨none, rep⟩).2.1.canvas_init = some none ∧
    ∃ o, (scriptRun fs s ⟨none, rep⟩).2.2 = Except.ok o := by
  have hinit : initCanvas fs s = { s with canvas_init := some none } := by
    simp [initCanvas, h1, h2, jsonLoad]
  cases him : fs.imageFile with
  | some i =>
    constructor
    · simp [scriptRun, loadImageStep, hinit, him]
    · simp only [scriptRun, loadImageStep, hinit, him]
      exact ⟨_, rfl⟩
  | none =>
    constructor
    · simp [scriptRun, loadImageStep, hinit, him]
    · simp only [scriptRun, loadImageStep, hinit, him]
      exact ⟨_, rfl⟩

/-- C5: re-running a refresh with the very same inputs is idempotent — the
second run returns bit-for-bit the same stores, session and rendered
output (shape list, note bindings, displayed state) as the first, and it is
a fixpoint of the state; moreover a refresh triggered only by note-field
keystrokes (same upload and canvas report, different note widget values) is
a no-op on the image and drawing state: the resulting stores are identical
and the session differs only in the note widget values themselves. -/
theorem claim_C5 :
    (∀ (fs : Fs) (s : Session) (inp : RunInput),
      scriptRun (scriptRun fs s inp).1 (scriptRun fs s inp).2.1 inp =
        scriptRun fs s inp) ∧
    (∀ (fs : Fs) (s : Session) (inp : RunInput) (g : String)
        (ns : List (Nat × String)),
      (scriptRun fs { s with generalNote := g, notes := ns } inp).1 =
        (scriptRun fs s inp).1 ∧
      (scriptRun fs { s with generalNote := g, notes := ns } inp).2.1 =
        { (scriptRun fs s inp).2.1 with generalNote := g, notes := ns }) := by
  constructor
  · intro fs s inp
    cases hL : loadImageStep fs (initCanvas fs s) inp.uploaded with
    | error e =>
      have h1 : scriptRun fs s inp = (fs, initCanvas fs s, Except.error e) := by
        simp [scriptRun, hL]
      rw [h1]
      have h2 : initCanvas fs (initCanvas fs s) = initCanvas fs s :=
        initCanvas_of_isSome fs (initCanvas_isSome fs s)
      simp [scriptRun, h2, hL]
    | ok t =>
      obtain ⟨fs₂, s₂, img⟩ := t
      have hci : s₂.canvas_init.isSome := by
        rw [(loadImageStep_ok_fields hL).1]
        exact initCanvas_isSome fs s
      cases img with
      | some i =>
        have h1 : scriptRun fs s inp = (saveStateStep fs₂ inp.canvasReport, s₂,
            Except.ok {
              displayedImage := some i
              canvasKey := some "canvas"
              canvasSeed := some (s₂.canvas_init.getD none)
              rects := renderedRects inp.canvasReport
              noteVals := noteValues s₂ (renderedRects inp.canvasReport).length
              exportText := some (combined_notes s₂.generalNote
                (noteValues s₂ (renderedRects inp.canvasReport).length)) }) := by
          simp [scriptRun, hL]
        rw [h1]
        have h2 : initCanvas (saveStateStep fs₂ inp.canvasReport) s₂ = s₂ :=
          initCanvas_of_isSome _ hci
        have h3 : loadImageStep (saveStateStep fs₂ inp.canvasReport) s₂
            inp.uploaded =
            Except.ok (saveStateStep fs₂ inp.canvasReport, s₂, some i) :=
          loadImageStep_restart hL (saveStateStep_imageFile fs₂ inp.canvasReport)
        simp [scriptRun, h2, h3, saveStateStep_idem]
      | none =>
        have h1 : scriptRun fs s inp = (fs₂, s₂, Except.ok {
            displayedImage := none
            canvasKey := none
            canvasSeed := none
            rects := []
            noteVals := []
            exportText := none }) := by
          simp [scriptRun, hL]
        rw [h1]
        have h2 : initCanvas fs₂ s₂ = s₂ := initCanvas_of_isSome _ hci
        have h3 : loadImageStep fs₂ s₂ inp.uploaded = Except.ok (fs₂, s₂, none) :=
          loadImageStep_restart hL rfl
        simp [scriptRun, h2, h3]
  · intro fs s inp g ns
    cases hL : loadImageStep fs (initCanvas fs s) inp.uploaded with
    | error e =>
      have hL2 : loadImageStep fs
          (initCanvas fs { s with generalNote := g, notes := ns }) inp.uploaded =
          Except.error e := by
        rw [initCanvas_setNotes, loadImageStep_setNotes, hL]
        rfl
      constructor
      · simp [scriptRun, hL, hL2]
      · simp only [scriptRun, hL, hL2]
        exact initCanvas_setNotes fs s g ns
    | ok t =>
      obtain ⟨fs₂, s₂, img⟩ := t
      have hL2 : loadImageStep fs
          (initCanvas fs { s with generalNote := g, notes := ns }) inp.uploaded =
          Except.ok (fs₂, { s₂ with generalNote := g, notes := ns }, img) := by
        rw [initCanvas_setNotes, loadImageStep_setNotes, hL]
        rfl
      cases img with
      | some i => exact ⟨by simp [scriptRun, hL, hL2], by simp [scriptRun, hL, hL2]⟩
      | none => exact ⟨by simp [scriptRun, hL, hL2], by simp [scriptRun, hL, hL2]⟩

/-- C10 witness: a concrete session start over an invalid snapshot file. -/
theorem claim_C10_witness :
    fsBad.stateFile = some { parsed := none } ∧ sE.canvas_init = none ∧
    ((scriptRun fsBad sE ⟨none, none⟩).2.1.canvas_init = some none ∧
      ∃ o, (scriptRun fsBad sE ⟨none, none⟩).2.2 = Except.ok o) :=
  ⟨rfl, rfl, claim_C10 fsBad sE none rfl rfl⟩

end PhotoNote
